import Mathlib

/-!
# Verification of the KPI computation engine of `dash_kpi_me.py`

Shallow embedding of the maintenance-KPI engine:

* numeric cell values are modeled as rationals (the pandas float arithmetic,
  taken exact); a cell that holds NaN is modeled as `Option.none`;
* a pandas DataFrame is modeled as a list of rows together with one presence
  flag per column the engine touches — accessing a missing column raises
  `KeyError`, modeled as `Except.error ()`; a guarded access
  (`if col in df.columns`) consults the flag;
* a float division whose denominator is zero produces a non-finite value
  (`inf`/`NaN`), modeled as `Option.none` where it can occur;
* `np.exp` forces one metric (`mantenibilidad`) into `ℝ`; it is kept out of
  the otherwise-computable metric records and defined separately.
-/

/-- A calendar date as carried by `FECHA_DE_INICIO`: `day` is a linear day
index (used by the date-range filter, which compares `.dt.date`), `year` the
calendar year (`.dt.year`) and `isoWeek` the ISO week (`.dt.isocalendar().week`). -/
structure Fecha where
  day : ℤ
  year : ℕ
  isoWeek : ℕ
deriving DecidableEq

/-- One cleaned record: a row of the DataFrame after `clean_and_prepare_data`. -/
structure Row where
  equipo : String
  conjunto : String
  ubicacion : String
  tipoMtto : String
  status : String
  produccionAfectada : String
  fechaInicio : Fecha
  trMin : ℚ
  tfcMin : ℚ
  tfsMin : ℚ
  tdisponible : ℚ
  hExtraMin : ℚ
deriving DecidableEq

/-- A DataFrame: rows plus per-column presence flags for the columns the
engine reads (EQUIPO, CONJUNTO, UBICACIÓN TÉCNICA, TIPO DE MTTO,
PRODUCCION_AFECTADA, FECHA_DE_INICIO, TDISPONIBLE, TFS_MIN, TR_MIN, TFC_MIN,
H_EXTRA_MIN).  When a flag is `false` the corresponding field of the rows is
junk that no faithful access path ever reads. -/
structure DF where
  rows : List Row
  hasEquipo : Bool
  hasConjunto : Bool
  hasUbicacion : Bool
  hasTipoMtto : Bool
  hasProdAfectada : Bool
  hasFecha : Bool
  hasTd : Bool
  hasTfs : Bool
  hasTr : Bool
  hasTfc : Bool
  hasHExtra : Bool
deriving DecidableEq

/-- Models `calcular_duracion_minutos` (source lines 32-42).  The two arguments are
the results of parsing `fecha_inicio + hora_inicio` and `fecha_fin + hora_fin`
into timestamps, in seconds (`none` = the parse inside the `try` raised).
The difference is converted to minutes and clamped at 0; any failure
(`except`) returns 0. -/
def calcular_duracion_minutos (inicio fin : Option ℤ) : ℚ :=
  match inicio, fin with
  | some a, some b => max (((b - a : ℤ) : ℚ) / 60) 0
  | _, _ => 0

/-- A raw spreadsheet cell of a numeric column: a number, an empty/NaN cell,
or a present but non-numeric text cell (`pd.isna` is false on text and
`text == 0` is false, but `pd.to_numeric(errors coerce)` turns it into NaN). -/
inductive RawCell where
  | num (v : ℚ)
  | na
  | text (t : String)
deriving DecidableEq

/-- Models `pd.to_numeric(col, errors coerce).fillna(0)` on one cell
(source lines 114-118): numbers survive, NaN and non-numeric text become 0. -/
def to_numeric_fillna0 (cell : RawCell) : ℚ :=
  match cell with
  | .num v => v
  | .na => 0
  | .text _ => 0

/-- One raw record as fed to `clean_and_prepare_data`: the numeric cells are
raw `RawCell`s; `inicioTs`/`finTs` are the parsed timestamp combinations
consumed by `calcular_duracion_minutos`. -/
structure RawRow where
  equipo : String
  conjunto : String
  ubicacion : String
  tipoMtto : String
  status : String
  produccionAfectada : String
  fechaInicio : Fecha
  inicioTs : Option ℤ
  finTs : Option ℤ
  trMinSrc : RawCell
  tfcMinSrc : RawCell
  tfsMinSrc : RawCell
  tdisponibleSrc : RawCell
  hExtraMinSrc : RawCell
deriving DecidableEq

/-- The raw DataFrame handed to the normalizer (columns already renamed to
their canonical names, which is a pure relabeling).  `hasFechaFin`,
`hasHoraInicio` and `hasHoraFinal` track the FECHA_DE_FIN / HORA_INICIO /
HORA_FINAL columns, which lines 94-103 read unguarded. -/
structure RawDF where
  rows : List RawRow
  hasStatus : Bool
  hasEquipo : Bool
  hasConjunto : Bool
  hasUbicacion : Bool
  hasTipoMtto : Bool
  hasProdAfectada : Bool
  hasFecha : Bool
  hasFechaFin : Bool
  hasHoraInicio : Bool
  hasHoraFinal : Bool
  hasTd : Bool
  hasTfs : Bool
  hasTr : Bool
  hasTfc : Bool
  hasHExtra : Bool
deriving DecidableEq

/-- Models the TR fallback of `clean_and_prepare_data` (source lines
106-110), which runs on the RAW cell before any numeric coercion:
`TR_MIN = calculado if pd.isna(TR_MIN) or TR_MIN == 0 else TR_MIN`.
A text cell is neither NaN nor `== 0`, so it is kept as text here. -/
def tr_fallback (calculado : ℚ) (cell : RawCell) : RawCell :=
  match cell with
  | .na => .num calculado
  | .num v => if v = 0 then .num calculado else .num v
  | .text t => .text t

/-- Per-row part of `clean_and_prepare_data` (source lines 97-118), in source
order: `TR_MIN_CALCULADO` from the timestamps (line 98), then the fallback on
the raw TR cell when the column exists or the calculated value when it does
not (lines 106-112), and only then the `to_numeric(...).fillna(0)` coercion
of the numeric columns (lines 114-118) — so a present non-numeric TR cell
survives the fallback and is coerced to 0, not to the derived duration. -/
def normalizeRow (hasTrCol : Bool) (s : RawRow) : Row :=
  let calculado := calcular_duracion_minutos s.inicioTs s.finTs
  { equipo := s.equipo
    conjunto := s.conjunto
    ubicacion := s.ubicacion
    tipoMtto := s.tipoMtto
    status := s.status
    produccionAfectada := s.produccionAfectada
    fechaInicio := s.fechaInicio
    trMin :=
      to_numeric_fillna0 (if hasTrCol then tr_fallback calculado s.trMinSrc else .num calculado)
    tfcMin := to_numeric_fillna0 s.tfcMinSrc
    tfsMin := to_numeric_fillna0 s.tfsMinSrc
    tdisponible := to_numeric_fillna0 s.tdisponibleSrc
    hExtraMin := to_numeric_fillna0 s.hExtraMinSrc }

/-- Models `clean_and_prepare_data` (source lines 65-124).  Lines 94-95 read
FECHA_DE_INICIO and FECHA_DE_FIN unguarded (`KeyError` when absent); the
`apply` of lines 98-103 reads HORA_INICIO and HORA_FINAL of every row
(`KeyError` when absent and at least one row exists).  Otherwise: normalize
every row, then keep only rows with `STATUS == 'CULMINADO'` (guarded on the
STATUS column, source lines 121-122).  The output always carries `TR_MIN`. -/
def clean_and_prepare_data (raw : RawDF) : Except Unit DF :=
  if ¬ raw.hasFecha ∨ ¬ raw.hasFechaFin then .error ()
  else if raw.rows ≠ [] ∧ (¬ raw.hasHoraInicio ∨ ¬ raw.hasHoraFinal) then .error ()
  else
    let rows0 := raw.rows.map (normalizeRow raw.hasTr)
    .ok
      { rows := if raw.hasStatus then rows0.filter (fun r => r.status == "CULMINADO") else rows0
        hasEquipo := raw.hasEquipo
        hasConjunto := raw.hasConjunto
        hasUbicacion := raw.hasUbicacion
        hasTipoMtto := raw.hasTipoMtto
        hasProdAfectada := raw.hasProdAfectada
        hasFecha := true
        hasTd := raw.hasTd
        hasTfs := raw.hasTfs
        hasTr := true
        hasTfc := raw.hasTfc
        hasHExtra := raw.hasHExtra }

/-- The mask `df['PRODUCCION_AFECTADA'] == 'SI'` (source line 138). -/
def esAfectada (r : Row) : Bool := r.produccionAfectada == "SI"

/-- The mask `df['TIPO DE MTTO'] == 'CORRECTIVO DE EMERGENCIA'` (source line 186). -/
def esEmergencia (r : Row) : Bool := r.tipoMtto == "CORRECTIVO DE EMERGENCIA"

/-- Models `m['td']` (source line 135): guarded sum of `TDISPONIBLE` over all rows. -/
def metric_td (df : DF) : ℚ :=
  if df.hasTd then (df.rows.map (fun r => r.tdisponible)).sum else 0

/-- Models `m['tfs']` (source line 139): guarded sum of `TFS_MIN` over the
production-affected rows. -/
def metric_tfs (df : DF) : ℚ :=
  if df.hasTfs then ((df.rows.filter esAfectada).map (fun r => r.tfsMin)).sum else 0

/-- Models `m['tr']` (source line 140). -/
def metric_tr (df : DF) : ℚ :=
  if df.hasTr then ((df.rows.filter esAfectada).map (fun r => r.trMin)).sum else 0

/-- Models `m['tfc']` (source line 141). -/
def metric_tfc (df : DF) : ℚ :=
  if df.hasTfc then ((df.rows.filter esAfectada).map (fun r => r.tfcMin)).sum else 0

/-- Models `m['to'] = max(m['td'] - m['tfs'], 0)` (source line 144). -/
def metric_to (df : DF) : ℚ := max (metric_td df - metric_tfs df) 0

/-- Models `m['disponibilidad']` (source line 147). -/
def metric_disponibilidad (df : DF) : ℚ :=
  if metric_td df > 0 then metric_to df / metric_td df * 100 else 0

/-- Models `m['indisponibilidad']` (source line 148). -/
def metric_indisponibilidad (df : DF) : ℚ :=
  if metric_td df > 0 then metric_tfs df / metric_td df * 100 else 0

/-- Models `m['total_fallas'] = len(df[prod_afectada_mask])` (source line 151). -/
def total_fallas (df : DF) : ℕ := (df.rows.filter esAfectada).length

/-- Models `m['mtbf']` (source line 154). -/
def metric_mtbf (df : DF) : ℚ :=
  if total_fallas df > 0 then metric_td df / (total_fallas df : ℚ) else 0

/-- Models `m['mttf']` (source line 155). -/
def metric_mttf (df : DF) : ℚ :=
  if total_fallas df > 0 then metric_to df / (total_fallas df : ℚ) else 0

/-- Models `m['mttr']` (source line 156). -/
def metric_mttr (df : DF) : ℚ :=
  if total_fallas df > 0 then metric_tr df / (total_fallas df : ℚ) else 0

/-- Models `landa = m['total_fallas'] / m['td'] if m['td'] > 0 else 0` (source line 159). -/
def landa (df : DF) : ℚ :=
  if metric_td df > 0 then (total_fallas df : ℚ) / metric_td df else 0

/-- Models `m['mantenibilidad'] = 1 - np.exp(-landa * m['td']) if landa > 0 else 0`
(source line 160).  `np.exp` forces this metric into `ℝ`; it is the only
noncomputable part of the embedding. -/
noncomputable def mantenibilidad (df : DF) : ℝ :=
  if landa df > 0 then 1 - Real.exp (-((landa df * metric_td df : ℚ) : ℝ)) else 0

/-- Models `tipo_mtto_totals.get(t, 0)` of `df.groupby('TIPO DE MTTO')['TR_MIN'].sum()`
(source line 163): the `TR_MIN` total of maintenance type `t`. -/
def tipo_total (df : DF) (t : String) : ℚ :=
  ((df.rows.filter (fun r => r.tipoMtto == t)).map (fun r => r.trMin)).sum

/-- Models `total_mtto = tipo_mtto_totals.sum()` (source line 164): equals the sum of
`TR_MIN` over all rows. -/
def total_mtto (df : DF) : ℚ := (df.rows.map (fun r => r.trMin)).sum

/-- A type-distribution percentage (source lines 166-173). -/
def tipo_pct (df : DF) (t : String) : ℚ :=
  if total_mtto df > 0 then tipo_total df t / total_mtto df * 100 else 0

/-- Models `m['horas_extras_acumuladas']` (source line 176). -/
def horas_extras_acumuladas (df : DF) : ℚ :=
  if df.hasHExtra then (df.rows.map (fun r => r.hExtraMin)).sum else 0

/-- The mapping returned by `calculate_metrics` on the non-empty path
(`mantenibilidad` lives separately in `ℝ`, see above). -/
structure Metrics where
  td : ℚ
  tfs : ℚ
  tr : ℚ
  tfc : ℚ
  toOp : ℚ
  disponibilidad : ℚ
  indisponibilidad : ℚ
  total_fallas : ℕ
  mtbf : ℚ
  mttf : ℚ
  mttr : ℚ
  mp_pct : ℚ
  mbc_pct : ℚ
  mce_pct : ℚ
  mcp_pct : ℚ
  mms_pct : ℚ
  horas_extras_acumuladas : ℚ
deriving DecidableEq

/-- The metric mapping built on the non-empty path of `calculate_metrics`
(source lines 132-176). -/
def metricsOf (df : DF) : Metrics :=
  { td := metric_td df
    tfs := metric_tfs df
    tr := metric_tr df
    tfc := metric_tfc df
    toOp := metric_to df
    disponibilidad := metric_disponibilidad df
    indisponibilidad := metric_indisponibilidad df
    total_fallas := total_fallas df
    mtbf := metric_mtbf df
    mttf := metric_mttf df
    mttr := metric_mttr df
    mp_pct := tipo_pct df "PREVENTIVO"
    mbc_pct := tipo_pct df "BASADO EN CONDICIÓN"
    mce_pct := tipo_pct df "CORRECTIVO DE EMERGENCIA"
    mcp_pct := tipo_pct df "CORRECTIVO PROGRAMADO"
    mms_pct := tipo_pct df "MEJORA DE SISTEMA"
    horas_extras_acumuladas := horas_extras_acumuladas df }

/-- Models `calculate_metrics` (source lines 127-178).  Empty input returns the empty
mapping (`none`).  On non-empty input the unguarded accesses raise `KeyError`
when their column is missing: `df['PRODUCCION_AFECTADA']` (line 138) and
`df.groupby('TIPO DE MTTO')['TR_MIN']` (line 163). -/
def calculate_metrics (df : DF) : Except Unit (Option Metrics) :=
  if df.rows = [] then .ok none
  else if ¬ df.hasProdAfectada then .error ()
  else if ¬ df.hasTipoMtto then .error ()
  else if ¬ df.hasTr then .error ()
  else .ok (some (metricsOf df))

/-- Models `df_emergency = df[df['TIPO DE MTTO'] == 'CORRECTIVO DE EMERGENCIA']`
(source lines 186-187). -/
def df_emergency (df : DF) : List Row := df.rows.filter esEmergencia

/-- Models `m['tr_emergency']` (source line 199). -/
def tr_emergency (df : DF) : ℚ :=
  if df.hasTr then ((df_emergency df).map (fun r => r.trMin)).sum else 0

/-- Models `m['tfc_emergency']` (source line 200). -/
def tfc_emergency (df : DF) : ℚ :=
  if df.hasTfc then ((df_emergency df).map (fun r => r.tfcMin)).sum else 0

/-- Models `m['tfs_emergency']` (source line 201). -/
def tfs_emergency (df : DF) : ℚ :=
  if df.hasTfs then ((df_emergency df).map (fun r => r.tfsMin)).sum else 0

/-- Models `m['total_fallas_emergency'] = len(df_emergency)` (source line 204). -/
def total_fallas_emergency (df : DF) : ℕ := (df_emergency df).length

/-- Models `m['total_fallas_emergency_con_parada']` (source line 207). -/
def total_fallas_emergency_con_parada (df : DF) : ℕ :=
  ((df_emergency df).filter esAfectada).length

/-- Models `m['mtbf_emergency']` (source lines 210-211 and 220). -/
def mtbf_emergency (df : DF) : ℚ :=
  if total_fallas_emergency df > 0 then
    if metric_td df > 0 then metric_td df / (total_fallas_emergency df : ℚ) else 0
  else 0

/-- Models `m['mttr_emergency']` (source lines 210-212 and 221). -/
def mttr_emergency (df : DF) : ℚ :=
  if total_fallas_emergency df > 0 then
    tr_emergency df / (total_fallas_emergency df : ℚ)
  else 0

/-- Models `tfs_emergency_prod` (source lines 215-216): `TFS_MIN` sum over the
emergency rows that affect production. -/
def tfs_emergency_prod (df : DF) : ℚ :=
  if df.hasTfs then (((df_emergency df).filter esAfectada).map (fun r => r.tfsMin)).sum else 0

/-- Models `to_emergency = max(m['td'] - tfs_emergency_prod, 0)` (source line 217). -/
def to_emergency (df : DF) : ℚ := max (metric_td df - tfs_emergency_prod df) 0

/-- Models `m['mttf_emergency']` (source lines 218 and 222). -/
def mttf_emergency (df : DF) : ℚ :=
  if total_fallas_emergency df > 0 then
    to_emergency df / (total_fallas_emergency df : ℚ)
  else 0

/-- Models `landa_emergency` (source line 225). -/
def landa_emergency (df : DF) : ℚ :=
  if metric_td df > 0 then (total_fallas_emergency df : ℚ) / metric_td df else 0

/-- Models `m['mantenibilidad_emergency']` (source line 226), in `ℝ` because of `np.exp`. -/
noncomputable def mantenibilidad_emergency (df : DF) : ℝ :=
  if landa_emergency df > 0 then
    1 - Real.exp (-((landa_emergency df * metric_td df : ℚ) : ℝ))
  else 0

/-- Models `m['mantenibilidad_pct'] = m['mantenibilidad_emergency'] * 100` (source line 229). -/
noncomputable def mantenibilidad_pct (df : DF) : ℝ := mantenibilidad_emergency df * 100

/-- The mapping returned by `calculate_reliability_metrics` on the non-empty
path (the two `mantenibilidad` entries live separately in `ℝ`). -/
structure RelMetrics where
  td : ℚ
  tr_emergency : ℚ
  tfc_emergency : ℚ
  tfs_emergency : ℚ
  total_fallas_emergency : ℕ
  total_fallas_emergency_con_parada : ℕ
  mtbf_emergency : ℚ
  mttr_emergency : ℚ
  mttf_emergency : ℚ
deriving DecidableEq

/-- The reliability mapping built on the non-empty path of
`calculate_reliability_metrics` (source lines 192-229). -/
def relMetricsOf (df : DF) : RelMetrics :=
  { td := metric_td df
    tr_emergency := tr_emergency df
    tfc_emergency := tfc_emergency df
    tfs_emergency := tfs_emergency df
    total_fallas_emergency := total_fallas_emergency df
    total_fallas_emergency_con_parada := total_fallas_emergency_con_parada df
    mtbf_emergency := mtbf_emergency df
    mttr_emergency := mttr_emergency df
    mttf_emergency := mttf_emergency df }

/-- Models `calculate_reliability_metrics` (source lines 181-231).  Empty input and
empty emergency subset both return the empty mapping.  Unguarded accesses:
`df['TIPO DE MTTO']` (line 186) and, once the emergency subset is non-empty,
`df_emergency['PRODUCCION_AFECTADA']` (line 207). -/
def calculate_reliability_metrics (df : DF) : Except Unit (Option RelMetrics) :=
  if df.rows = [] then .ok none
  else if ¬ df.hasTipoMtto then .error ()
  else if df_emergency df = [] then .ok none
  else if ¬ df.hasProdAfectada then .error ()
  else .ok (some (relMetricsOf df))

/-- The equipment filter stage of `apply_filters` (source lines 344-346):
`df['EQUIPO'].astype(str) == equipo_filter`, an unguarded column access. -/
def filtro_equipo (equipo_filter : String) (df : DF) : Except Unit DF :=
  if equipo_filter ≠ "Todos" then
    if df.hasEquipo then
      Except.ok { df with rows := df.rows.filter (fun r => r.equipo == equipo_filter) }
    else Except.error ()
  else Except.ok df

/-- The assembly filter stage of `apply_filters` (source lines 348-350),
an unguarded column access. -/
def filtro_conjunto (conjunto_filter : String) (df : DF) : Except Unit DF :=
  if conjunto_filter ≠ "Todos" then
    if df.hasConjunto then
      Except.ok { df with rows := df.rows.filter (fun r => r.conjunto == conjunto_filter) }
    else Except.error ()
  else Except.ok df

/-- The technical location filter stage of `apply_filters` (source lines
352-355): guarded by `if 'UBICACIÓN TÉCNICA' in filtered_df.columns` and
silently skipped when the column is absent. -/
def filtro_ubicacion (ubicacion_filter : String) (df : DF) : Except Unit DF :=
  if ubicacion_filter ≠ "Todos" then
    if df.hasUbicacion then
      Except.ok { df with rows := df.rows.filter (fun r => r.ubicacion == ubicacion_filter) }
    else Except.ok df
  else Except.ok df

/-- The date range stage of `apply_filters` (source lines 357-362): runs only
when both bounds are given, compares the date component of `FECHA_DE_INICIO`
(an unguarded access), inclusive on both ends. -/
def filtro_fechas (fecha_inicio fecha_fin : Option ℤ) (df : DF) : Except Unit DF :=
  match fecha_inicio, fecha_fin with
  | some fi, some ff =>
      if df.hasFecha then
        let enRango := fun r : Row => decide (fi ≤ r.fechaInicio.day ∧ r.fechaInicio.day ≤ ff)
        Except.ok { df with rows := df.rows.filter enRango }
      else Except.error ()
  | _, _ => Except.ok df

/-- Models `apply_filters` (source lines 341-364): the four filter stages applied in
source order. -/
def apply_filters (df : DF) (equipo_filter conjunto_filter ubicacion_filter : String)
    (fecha_inicio fecha_fin : Option ℤ) : Except Unit DF :=
  (((filtro_equipo equipo_filter df).bind
    (filtro_conjunto conjunto_filter)).bind
    (filtro_ubicacion ubicacion_filter)).bind
    (filtro_fechas fecha_inicio fecha_fin)

/-- Two DataFrames carry the same presence flags for the four columns the
Filter Engine reads (filter stages never add or drop columns). -/
def SameCols (d d2 : DF) : Prop :=
  d.hasEquipo = d2.hasEquipo ∧ d.hasConjunto = d2.hasConjunto ∧
  d.hasUbicacion = d2.hasUbicacion ∧ d.hasFecha = d2.hasFecha

/-- The decimal digit string of `n`, most significant digit first, as produced
by Python's `str()` on a non-negative integer, modeled as the list of digit
values (character order on `'0'..'9'` coincides with digit order). -/
def digitsBE (n : ℕ) : List ℕ := (Nat.digits 10 n).reverse

/-- Models `.str.zfill(2)`: left-pad the digit string to length at least 2 with zeros. -/
def zfill2 (l : List ℕ) : List ℕ :=
  if l.length < 2 then List.replicate (2 - l.length) 0 ++ l else l

/-- Models `SEMANA_NUM = AÑO.astype(str) + SEMANA.astype(str).str.zfill(2)`
(source lines 259, 283, 335), as a digit string. -/
def semanaNumKey (k : ℕ × ℕ) : List ℕ := digitsBE k.1 ++ zfill2 (digitsBE k.2)

/-- Python string `<=` restricted to digit strings (lexicographic; a proper
prefix precedes its extensions). -/
def lexLe : List ℕ → List ℕ → Bool
  | [], _ => true
  | _ :: _, [] => false
  | a :: as, b :: bs => if a < b then true else if b < a then false else lexLe as bs

/-- The numeric value of a digit string (most significant first). -/
def ofDigitsBE : List ℕ → ℕ
  | [] => 0
  | a :: as => a * 10 ^ as.length + ofDigitsBE as

/-- The grouping key of a row: `(AÑO, SEMANA) = (year of FECHA_DE_INICIO,
ISO week of FECHA_DE_INICIO)` (source lines 242-243).  `SEMANA_STR` is a
function of this pair, so grouping by the triple
`(SEMANA_STR, AÑO, SEMANA)` is grouping by this pair. -/
def weekKey (r : Row) : ℕ × ℕ := (r.fechaInicio.year, r.fechaInicio.isoWeek)

/-- Distinct elements of `l` in first-seen order, skipping those in `seen`
(helper for the groupby group keys). -/
def firstSeenAux {α : Type} [DecidableEq α] (seen : List α) : List α → List α
  | [] => []
  | x :: xs => if x ∈ seen then firstSeenAux seen xs else x :: firstSeenAux (x :: seen) xs

/-- The distinct grouping keys in first-seen order (`groupby` group keys;
their relative order is irrelevant because a total sort follows). -/
def firstSeen {α : Type} [DecidableEq α] (l : List α) : List α := firstSeenAux [] l

/-- Models `groupby` + per-group aggregation: one `mk`-built bucket per distinct
week key, fed with the rows of that group. -/
def bucketsOf {β : Type} (mk : ℕ × ℕ → List Row → β) (rows : List Row) : List β :=
  (firstSeen (rows.map weekKey)).map
    (fun k => mk k (rows.filter (fun r => decide (weekKey r = k))))

/-- Models `sort_values('SEMANA_NUM')` (source lines 260, 284, 336): sort buckets by
the `SEMANA_NUM` string.  pandas' default quicksort is not stable, so any
correct sort models it; we use insertion sort. -/
def sortSemanas {β : Type} (num : β → List ℕ) (l : List β) : List β :=
  List.insertionSort (fun a b => lexLe (num a) (num b) = true) l

/-- Models `(TDISPONIBLE - TFS_MIN) / TDISPONIBLE * 100` (source line 256): a float
division with no zero guard; a zero denominator yields a non-finite float
(`NaN` or `-inf`), modeled as `none`. -/
def dispo_semanal (td tfs : ℚ) : Option ℚ :=
  if td = 0 then none else some ((td - tfs) / td * 100)

/-- One bucket of the general weekly view (source lines 247-256). -/
structure WeeklyRow where
  anio : ℕ
  semana : ℕ
  tfs : ℚ
  tr : ℚ
  tfc : ℚ
  td : ℚ
  numAfectada : ℕ
  dispoSemanal : Option ℚ
  semanaNum : List ℕ
deriving DecidableEq

/-- Aggregation of one general-view bucket (source lines 247-256): sums of
TFS/TR/TFC/TDISPONIBLE, the count of `'SI'` rows, and the weekly availability. -/
def mkWeeklyRow (k : ℕ × ℕ) (rs : List Row) : WeeklyRow :=
  { anio := k.1
    semana := k.2
    tfs := (rs.map (fun r => r.tfsMin)).sum
    tr := (rs.map (fun r => r.trMin)).sum
    tfc := (rs.map (fun r => r.tfcMin)).sum
    td := (rs.map (fun r => r.tdisponible)).sum
    numAfectada := (rs.filter esAfectada).length
    dispoSemanal := dispo_semanal (rs.map (fun r => r.tdisponible)).sum
      (rs.map (fun r => r.tfsMin)).sum
    semanaNum := semanaNumKey k }

/-- Models `get_weekly_data` (source lines 234-262): empty/`FECHA_DE_INICIO`-less
input gives an empty frame; the production mask (line 247) and the `agg`
columns (lines 248-251) are unguarded accesses. -/
def get_weekly_data (df : DF) : Except Unit (List WeeklyRow) :=
  if df.rows = [] ∨ ¬ df.hasFecha then .ok []
  else if ¬ df.hasProdAfectada then .error ()
  else if ¬ (df.hasTfs ∧ df.hasTr ∧ df.hasTfc ∧ df.hasTd) then .error ()
  else .ok (sortSemanas (fun b => b.semanaNum) (bucketsOf mkWeeklyRow (df.rows.filter esAfectada)))

/-- One bucket of the overtime weekly view (source lines 278-284). -/
structure WeeklyExtra where
  anio : ℕ
  semana : ℕ
  hExtra : ℚ
  semanaNum : List ℕ
deriving DecidableEq

/-- Aggregation of one overtime bucket (source lines 278-280). -/
def mkWeeklyExtra (k : ℕ × ℕ) (rs : List Row) : WeeklyExtra :=
  { anio := k.1
    semana := k.2
    hExtra := (rs.map (fun r => r.hExtraMin)).sum
    semanaNum := semanaNumKey k }

/-- Models `get_weekly_extra_hours` (source lines 265-286): like the general view but
over all rows, aggregating `H_EXTRA_MIN` (unguarded access, line 279). -/
def get_weekly_extra_hours (df : DF) : Except Unit (List WeeklyExtra) :=
  if df.rows = [] ∨ ¬ df.hasFecha then .ok []
  else if ¬ df.hasHExtra then .error ()
  else .ok (sortSemanas (fun b => b.semanaNum) (bucketsOf mkWeeklyExtra df.rows))

/-- One bucket of the emergency weekly view (source lines 308-332). -/
structure WeeklyEmergency where
  anio : ℕ
  semana : ℕ
  tr : ℚ
  tfc : ℚ
  tfs : ℚ
  td : ℚ
  numOrdenes : ℕ
  numOrdenesParada : ℕ
  mttrSemanal : ℚ
  semanaNum : List ℕ
deriving DecidableEq

/-- Aggregation of one emergency bucket (source lines 308-332): sums of
TR/TFC/TFS, `'first'` of TDISPONIBLE, the two order counts (the with-stoppage
count merged with `fillna(0)`), and the weekly MTTR with its zero guard. -/
def mkWeeklyEmergency (k : ℕ × ℕ) (rs : List Row) : WeeklyEmergency :=
  { anio := k.1
    semana := k.2
    tr := (rs.map (fun r => r.trMin)).sum
    tfc := (rs.map (fun r => r.tfcMin)).sum
    tfs := (rs.map (fun r => r.tfsMin)).sum
    td := match rs with
      | [] => 0
      | r :: _ => r.tdisponible
    numOrdenes := rs.length
    numOrdenesParada := (rs.filter esAfectada).length
    mttrSemanal :=
      if rs.length > 0 then (rs.map (fun r => r.trMin)).sum / (rs.length : ℚ) else 0
    semanaNum := semanaNumKey k }

/-- Models `get_weekly_emergency_data` (source lines 289-338): empty or
`FECHA_DE_INICIO`-less input and an empty emergency subset give empty frames;
the emergency mask (line 302), the `agg` columns (lines 309-312) and the
with-stoppage count (line 319) are unguarded accesses. -/
def get_weekly_emergency_data (df : DF) : Except Unit (List WeeklyEmergency) :=
  if df.rows = [] ∨ ¬ df.hasFecha then .ok []
  else if ¬ df.hasTipoMtto then .error ()
  else if df.rows.filter esEmergencia = [] then .ok []
  else if ¬ (df.hasTr ∧ df.hasTfc ∧ df.hasTfs ∧ df.hasTd) then .error ()
  else if ¬ df.hasProdAfectada then .error ()
  else .ok (sortSemanas (fun b => b.semanaNum)
    (bucketsOf mkWeeklyEmergency (df.rows.filter esEmergencia)))

/-- Validity of a bucket key `(AÑO, SEMANA)`: pandas `Timestamp`s range over
the years 1677-2262, so the year has exactly four decimal digits, and an ISO
week number is at most 53, so at most two. -/
def ValidKey (k : ℕ × ℕ) : Prop := 1000 ≤ k.1 ∧ k.1 < 10000 ∧ k.2 < 100

/-- Validity of a `FECHA_DE_INICIO` value, see `ValidKey`. -/
@[reducible]
def ValidFecha (f : Fecha) : Prop := 1000 ≤ f.year ∧ f.year < 10000 ∧ f.isoWeek < 100

/-- Strict ordering of bucket keys by `(year, week)`, lexicographically. -/
def pairLt (a b : ℕ × ℕ) : Prop := a.1 < b.1 ∨ (a.1 = b.1 ∧ a.2 < b.2)

/-- A completed baseline row used to build concrete test inputs. -/
def baseRow : Row :=
  { equipo := "E1"
    conjunto := "J1"
    ubicacion := "U1"
    tipoMtto := "PREVENTIVO"
    status := "CULMINADO"
    produccionAfectada := "NO"
    fechaInicio := { day := 0, year := 2024, isoWeek := 1 }
    trMin := 0
    tfcMin := 0
    tfsMin := 0
    tdisponible := 0
    hExtraMin := 0 }

/-- A DataFrame carrying all columns the engine reads. -/
def dfAll (rows : List Row) : DF :=
  { rows := rows
    hasEquipo := true
    hasConjunto := true
    hasUbicacion := true
    hasTipoMtto := true
    hasProdAfectada := true
    hasFecha := true
    hasTd := true
    hasTfs := true
    hasTr := true
    hasTfc := true
    hasHExtra := true }

/-- Counterexample input for C1: one production-affected record whose downtime
(20) exceeds its available time (10). -/
def c1df : DF :=
  dfAll [{ baseRow with produccionAfectada := "SI", tdisponible := 10, tfsMin := 20 }]

/-- Witness input for the amended C1: downtime 40 within available time 100. -/
def c1wdf : DF :=
  dfAll [{ baseRow with produccionAfectada := "SI", tdisponible := 100, tfsMin := 40 }]

/-- Failing row for C2: a production-affected record in a week whose
available-time sum is 0 (for example an unparseable TDISPONIBLE cell, coerced
to 0 by the normalizer) with non-zero downtime. -/
def c2row : Row := { baseRow with produccionAfectada := "SI", tdisponible := 0, tfsMin := 5 }

/-- Failing record set for C2. -/
def c2df : DF := dfAll [c2row]

/-- Counterexample input for C3: one record, `PRODUCCION_AFECTADA` column absent. -/
def c3df : DF := { dfAll [baseRow] with hasProdAfectada := false }

/-- Witness input for the amended C3: all five guarded numeric columns absent. -/
def c3wdf : DF :=
  { dfAll [baseRow] with hasTd := false, hasTfs := false, hasTfc := false, hasHExtra := false }

/-- The three completed records of the C4 scenario. -/
def c4r1 : Row :=
  { baseRow with
    equipo := "A"
    tipoMtto := "CORRECTIVO DE EMERGENCIA"
    produccionAfectada := "SI"
    trMin := 60
    tdisponible := 1440 }

/-- Second record of the C4 scenario. -/
def c4r2 : Row :=
  { baseRow with
    equipo := "A"
    tipoMtto := "PREVENTIVO"
    produccionAfectada := "NO"
    trMin := 30 }

/-- Third record of the C4 scenario. -/
def c4r3 : Row :=
  { baseRow with
    equipo := "B"
    tipoMtto := "CORRECTIVO DE EMERGENCIA"
    produccionAfectada := "NO"
    trMin := 20
    tdisponible := 1440 }

/-- The C4 scenario record set. -/
def c4df : DF := dfAll [c4r1, c4r2, c4r3]

/-- Witness raw record for C5: source TR present, numeric and non-zero,
timestamps unparseable. -/
def c5rawRow : RawRow :=
  { equipo := "E1"
    conjunto := "J1"
    ubicacion := "U1"
    tipoMtto := "PREVENTIVO"
    status := "CULMINADO"
    produccionAfectada := "NO"
    fechaInicio := { day := 0, year := 2024, isoWeek := 1 }
    inicioTs := none
    finTs := none
    trMinSrc := .num 5
    tfcMinSrc := .na
    tfsMinSrc := .na
    tdisponibleSrc := .na
    hExtraMinSrc := .na }

/-- Witness raw DataFrame for C5. -/
def c5raw : RawDF :=
  { rows := [c5rawRow]
    hasStatus := true
    hasEquipo := true
    hasConjunto := true
    hasUbicacion := true
    hasTipoMtto := true
    hasProdAfectada := true
    hasFecha := true
    hasFechaFin := true
    hasHoraInicio := true
    hasHoraFinal := true
    hasTd := true
    hasTfs := true
    hasTr := true
    hasTfc := true
    hasHExtra := true }

/-- The normalized row the C5 witness tracks. -/
def c5row : Row := normalizeRow true c5rawRow

/-- Counterexample raw record for C5: the TR cell is present but non-numeric
text, while the timestamps parse to a 45-minute duration (2700 seconds). -/
def c5cexRow : RawRow :=
  { equipo := "E1"
    conjunto := "J1"
    ubicacion := "U1"
    tipoMtto := "PREVENTIVO"
    status := "CULMINADO"
    produccionAfectada := "NO"
    fechaInicio := { day := 0, year := 2024, isoWeek := 1 }
    inicioTs := some 0
    finTs := some 2700
    trMinSrc := .text "n/a"
    tfcMinSrc := .na
    tfsMinSrc := .na
    tdisponibleSrc := .na
    hExtraMinSrc := .na }

/-- Counterexample raw DataFrame for C5. -/
def c5cexRaw : RawDF :=
  { rows := [c5cexRow]
    hasStatus := true
    hasEquipo := true
    hasConjunto := true
    hasUbicacion := true
    hasTipoMtto := true
    hasProdAfectada := true
    hasFecha := true
    hasFechaFin := true
    hasHoraInicio := true
    hasHoraFinal := true
    hasTd := true
    hasTfs := true
    hasTr := true
    hasTfc := true
    hasHExtra := true }

/-- Witness input for C6: the empty record set with all columns present. -/
def c6edf : DF := dfAll []

/-- Witness input for C7: first of two rows on either side of a year boundary. -/
def c7row1 : Row :=
  { baseRow with
    produccionAfectada := "SI"
    tipoMtto := "CORRECTIVO DE EMERGENCIA"
    fechaInicio := { day := 738885, year := 2023, isoWeek := 52 } }

/-- Second witness row for C7, in week 1 of the following year. -/
def c7row2 : Row :=
  { baseRow with
    produccionAfectada := "SI"
    tipoMtto := "CORRECTIVO DE EMERGENCIA"
    fechaInicio := { day := 738892, year := 2024, isoWeek := 1 } }

/-- Witness record set for C7. -/
def c7wdf : DF := dfAll [c7row1, c7row2]

/-- Witness row for C9: one production-affected emergency record with
available time 1440. -/
def c9row : Row :=
  { baseRow with
    produccionAfectada := "SI"
    tipoMtto := "CORRECTIVO DE EMERGENCIA"
    tdisponible := 1440 }

/-- Witness record set for C9. -/
def c9df : DF := dfAll [c9row]

/-- Witness input for C10: the technical-location column is absent. -/
def c10df : DF := { dfAll [baseRow] with hasUbicacion := false }

theorem ofDigitsBE_append (xs ys : List ℕ) :
    ofDigitsBE (xs ++ ys) = ofDigitsBE xs * 10 ^ ys.length + ofDigitsBE ys := by
  induction xs with
  | nil => simp [ofDigitsBE]
  | cons a as ih =>
    simp only [List.cons_append, ofDigitsBE, List.append_eq, List.length_append, ih, pow_add]
    ring

theorem ofDigitsBE_lt {l : List ℕ} (h : ∀ d ∈ l, d < 10) :
    ofDigitsBE l < 10 ^ l.length := by
  induction l with
  | nil => simp [ofDigitsBE]
  | cons a as ih =>
    have ha : a < 10 := h a (by simp)
    have hr := ih (fun d hd => h d (by simp [hd]))
    simp only [ofDigitsBE, List.length_cons, pow_succ]
    calc a * 10 ^ as.length + ofDigitsBE as
        < a * 10 ^ as.length + 10 ^ as.length := by omega
      _ = (a + 1) * 10 ^ as.length := by ring
      _ ≤ 10 * 10 ^ as.length := Nat.mul_le_mul_right _ (by omega)
      _ = 10 ^ as.length * 10 := by ring

theorem ofDigitsBE_reverse (l : List ℕ) :
    ofDigitsBE l.reverse = Nat.ofDigits 10 l := by
  induction l with
  | nil => simp [ofDigitsBE]
  | cons a as ih =>
    simp only [List.reverse_cons, ofDigitsBE_append, ih, Nat.ofDigits_cons, ofDigitsBE,
      List.length_cons, List.length_nil, pow_zero, pow_one]
    ring

theorem lexLe_total (a b : List ℕ) : lexLe a b = true ∨ lexLe b a = true := by
  induction a generalizing b with
  | nil => left; rfl
  | cons x xs ih =>
    cases b with
    | nil => right; rfl
    | cons y ys =>
      rcases Nat.lt_trichotomy x y with h | h | h
      · left; simp [lexLe, h]
      · subst h
        rcases ih ys with h2 | h2
        · left; simp [lexLe, h2]
        · right; simp [lexLe, h2]
      · right; simp [lexLe, h]

theorem lexLe_trans (a b c : List ℕ) (h1 : lexLe a b = true) (h2 : lexLe b c = true) :
    lexLe a c = true := by
  induction a generalizing b c with
  | nil => rfl
  | cons x xs ih =>
    cases b with
    | nil => simp [lexLe] at h1
    | cons y ys =>
      cases c with
      | nil => simp [lexLe] at h2
      | cons z zs =>
        simp only [lexLe] at h1 h2 ⊢
        split_ifs at h1 h2 ⊢ with hxy hyx hyz hzy hxz hzx
        all_goals try rfl
        all_goals try omega
        all_goals try simp_all
        · exact ih ys zs h1 h2

theorem lexLe_strict : ∀ {a b : List ℕ}, a.length = b.length →
    (∀ d ∈ a, d < 10) → (∀ d ∈ b, d < 10) →
    lexLe a b = true → a ≠ b → ofDigitsBE a < ofDigitsBE b := by
  intro a
  induction a with
  | nil =>
    intro b hl _ _ _ hne
    cases b with
    | nil => exact absurd rfl hne
    | cons y ys => simp at hl
  | cons x xs ih =>
    intro b hl hda hdb hle hne
    cases b with
    | nil => simp at hl
    | cons y ys =>
      simp only [List.length_cons, Nat.succ_inj] at hl
      simp only [lexLe] at hle
      split_ifs at hle with hxy hyx
      · have hxa : ofDigitsBE xs < 10 ^ xs.length :=
          ofDigitsBE_lt (fun d hd => hda d (by simp [hd]))
        simp only [ofDigitsBE, hl]
        calc x * 10 ^ ys.length + ofDigitsBE xs
            < x * 10 ^ ys.length + 10 ^ ys.length := by rw [← hl]; omega
          _ = (x + 1) * 10 ^ ys.length := by ring
          _ ≤ y * 10 ^ ys.length := Nat.mul_le_mul_right _ (by omega)
          _ ≤ y * 10 ^ ys.length + ofDigitsBE ys := Nat.le_add_right _ _
      · have hxy2 : x = y := by omega
        subst hxy2
        have hne2 : xs ≠ ys := by
          intro h; exact hne (by rw [h])
        have := ih hl (fun d hd => hda d (by simp [hd])) (fun d hd => hdb d (by simp [hd]))
          hle hne2
        simp only [ofDigitsBE, hl]
        omega

theorem digitsBE_val (n : ℕ) : ofDigitsBE (digitsBE n) = n := by
  simpa [digitsBE, ofDigitsBE_reverse] using Nat.ofDigits_digits 10 n

theorem digitsBE_lt (n : ℕ) : ∀ d ∈ digitsBE n, d < 10 := fun d hd =>
  Nat.digits_lt_base (by norm_num) (List.mem_reverse.mp hd)

theorem digitsBE_length_four {y : ℕ} (h1 : 1000 ≤ y) (h2 : y < 10000) :
    (digitsBE y).length = 4 := by
  have hy : y ≠ 0 := by omega
  have hlen : (Nat.digits 10 y).length = Nat.log 10 y + 1 :=
    Nat.digits_len 10 y (by norm_num) hy
  have hlog : Nat.log 10 y = 3 :=
    Nat.log_eq_of_pow_le_of_lt_pow (by norm_num; omega) (by norm_num; omega)
  simp [digitsBE, hlen, hlog]

theorem digitsBE_length_le_two {w : ℕ} (h : w < 100) : (digitsBE w).length ≤ 2 := by
  rcases Nat.eq_zero_or_pos w with h0 | hp
  · simp [digitsBE, h0]
  · have hlen : (Nat.digits 10 w).length = Nat.log 10 w + 1 :=
      Nat.digits_len 10 w (by norm_num) (by omega)
    have hlog : Nat.log 10 w < 2 :=
      (Nat.lt_pow_iff_log_lt (by norm_num) (by omega)).mp (by norm_num; omega)
    simp only [digitsBE, List.length_reverse, hlen]
    omega

theorem ofDigitsBE_replicate_zero (k : ℕ) : ofDigitsBE (List.replicate k 0) = 0 := by
  induction k with
  | zero => rfl
  | succ n ih => simp [List.replicate_succ, ofDigitsBE, ih]

theorem zfill2_val (l : List ℕ) : ofDigitsBE (zfill2 l) = ofDigitsBE l := by
  unfold zfill2
  split
  · rw [ofDigitsBE_append, ofDigitsBE_replicate_zero]; ring
  · rfl

theorem zfill2_length {l : List ℕ} (h : l.length ≤ 2) : (zfill2 l).length = 2 := by
  unfold zfill2
  split
  · simp only [List.length_append, List.length_replicate]
    omega
  · omega

theorem zfill2_lt {l : List ℕ} (h : ∀ d ∈ l, d < 10) : ∀ d ∈ zfill2 l, d < 10 := by
  unfold zfill2
  split
  · intro d hd
    rcases List.mem_append.mp hd with h1 | h1
    · have := List.eq_of_mem_replicate h1; omega
    · exact h d h1
  · exact h

theorem semanaNumKey_lt_ten (k : ℕ × ℕ) : ∀ d ∈ semanaNumKey k, d < 10 := by
  intro d hd
  rcases List.mem_append.mp hd with h1 | h1
  · exact digitsBE_lt _ _ h1
  · exact zfill2_lt (digitsBE_lt _) _ h1

theorem semanaNumKey_length {k : ℕ × ℕ} (h : ValidKey k) : (semanaNumKey k).length = 6 := by
  obtain ⟨h1, h2, h3⟩ := h
  simp [semanaNumKey, digitsBE_length_four h1 h2, zfill2_length (digitsBE_length_le_two h3)]

theorem semanaNumKey_val {k : ℕ × ℕ} (h : ValidKey k) :
    ofDigitsBE (semanaNumKey k) = 100 * k.1 + k.2 := by
  obtain ⟨_, _, h3⟩ := h
  rw [semanaNumKey, ofDigitsBE_append, zfill2_length (digitsBE_length_le_two h3),
    zfill2_val, digitsBE_val, digitsBE_val]
  ring

theorem semanaNumKey_inj {k1 k2 : ℕ × ℕ} (h1 : ValidKey k1) (h2 : ValidKey k2)
    (h : semanaNumKey k1 = semanaNumKey k2) : k1 = k2 := by
  have hv := congrArg ofDigitsBE h
  rw [semanaNumKey_val h1, semanaNumKey_val h2] at hv
  obtain ⟨_, _, hw1⟩ := h1
  obtain ⟨_, _, hw2⟩ := h2
  have : k1.1 = k2.1 ∧ k1.2 = k2.2 := by omega
  exact Prod.ext this.1 this.2

theorem semanaNumKey_pairLt {k1 k2 : ℕ × ℕ} (h1 : ValidKey k1) (h2 : ValidKey k2)
    (hle : lexLe (semanaNumKey k1) (semanaNumKey k2) = true) (hne : k1 ≠ k2) :
    pairLt k1 k2 := by
  have hlen : (semanaNumKey k1).length = (semanaNumKey k2).length := by
    rw [semanaNumKey_length h1, semanaNumKey_length h2]
  have hne2 : semanaNumKey k1 ≠ semanaNumKey k2 := fun h => hne (semanaNumKey_inj h1 h2 h)
  have hv := lexLe_strict hlen (semanaNumKey_lt_ten k1) (semanaNumKey_lt_ten k2) hle hne2
  rw [semanaNumKey_val h1, semanaNumKey_val h2] at hv
  obtain ⟨_, _, hw1⟩ := h1
  obtain ⟨_, _, hw2⟩ := h2
  unfold pairLt
  omega

theorem mem_firstSeenAux {α : Type} [DecidableEq α] (l : List α) :
    ∀ (seen : List α) (a : α), a ∈ firstSeenAux seen l ↔ a ∈ l ∧ a ∉ seen := by
  induction l with
  | nil => intro seen a; simp [firstSeenAux]
  | cons x xs ih =>
    intro seen a
    unfold firstSeenAux
    split
    · rename_i hx
      rw [ih]
      simp only [List.mem_cons]
      constructor
      · rintro ⟨h1, h2⟩; exact ⟨Or.inr h1, h2⟩
      · rintro ⟨h1 | h1, h2⟩
        · subst h1; exact absurd hx h2
        · exact ⟨h1, h2⟩
    · rename_i hx
      simp only [List.mem_cons, ih, not_or]
      constructor
      · rintro (rfl | ⟨h1, h2, h3⟩)
        · exact ⟨Or.inl rfl, hx⟩
        · exact ⟨Or.inr h1, h3⟩
      · rintro ⟨h1 | h1, h2⟩
        · exact Or.inl h1
        · by_cases hax : a = x
          · exact Or.inl hax
          · exact Or.inr ⟨h1, hax, h2⟩

theorem nodup_firstSeenAux {α : Type} [DecidableEq α] (l : List α) :
    ∀ seen : List α, (firstSeenAux seen l).Nodup := by
  induction l with
  | nil => intro seen; simp [firstSeenAux]
  | cons x xs ih =>
    intro seen
    unfold firstSeenAux
    split
    · exact ih seen
    · refine List.nodup_cons.mpr ⟨?_, ih (x :: seen)⟩
      intro hmem
      exact ((mem_firstSeenAux xs (x :: seen) x).mp hmem).2 (List.mem_cons_self x seen)

theorem nodup_firstSeen {α : Type} [DecidableEq α] (l : List α) : (firstSeen l).Nodup :=
  nodup_firstSeenAux l []

theorem mem_firstSeen {α : Type} [DecidableEq α] {l : List α} {a : α} :
    a ∈ firstSeen l ↔ a ∈ l := by
  rw [firstSeen, mem_firstSeenAux]
  simp

theorem sortSemanas_pairwise {β : Type} (getKey : β → ℕ × ℕ) (num : β → List ℕ)
    (l : List β)
    (hnum : ∀ b ∈ l, num b = semanaNumKey (getKey b))
    (hval : ∀ b ∈ l, ValidKey (getKey b))
    (hnd : (l.map getKey).Nodup) :
    (sortSemanas num l).Pairwise (fun a b => pairLt (getKey a) (getKey b)) := by
  set r := fun a b : β => lexLe (num a) (num b) = true with hr
  have hperm : List.Perm (sortSemanas num l) l := List.perm_insertionSort r l
  have hsorted : (sortSemanas num l).Pairwise r := by
    letI : IsTotal β r := ⟨fun a b => by
      rcases lexLe_total (num a) (num b) with h | h
      · exact Or.inl h
      · exact Or.inr h⟩
    letI : IsTrans β r := ⟨fun a b c h1 h2 => lexLe_trans _ _ _ h1 h2⟩
    exact List.sorted_insertionSort r l
  have hnd2 : ((sortSemanas num l).map getKey).Nodup :=
    ((hperm.map getKey).nodup_iff).mpr hnd
  have hpw_ne : (sortSemanas num l).Pairwise (fun a b => getKey a ≠ getKey b) :=
    List.pairwise_map.mp hnd2
  refine (hsorted.and hpw_ne).imp_of_mem ?_
  intro a b ha hb hab
  have ha2 := hperm.mem_iff.mp ha
  have hb2 := hperm.mem_iff.mp hb
  refine semanaNumKey_pairLt (hval a ha2) (hval b hb2) ?_ hab.2
  rw [← hnum a ha2, ← hnum b hb2]
  exact hab.1

theorem bucketsOf_pairwise {β : Type} (mk : ℕ × ℕ → List Row → β)
    (getKey : β → ℕ × ℕ) (num : β → List ℕ)
    (hmk : ∀ k rs, getKey (mk k rs) = k)
    (hmknum : ∀ k rs, num (mk k rs) = semanaNumKey k)
    (rows : List Row) (hval : ∀ r ∈ rows, ValidKey (weekKey r)) :
    (sortSemanas num (bucketsOf mk rows)).Pairwise
      (fun a b => pairLt (getKey a) (getKey b)) := by
  apply sortSemanas_pairwise getKey num
  · intro b hb
    obtain ⟨k, hk, rfl⟩ := List.mem_map.mp hb
    rw [hmknum, hmk]
  · intro b hb
    obtain ⟨k, hk, rfl⟩ := List.mem_map.mp hb
    rw [hmk]
    have hk2 := mem_firstSeen.mp hk
    obtain ⟨r, hr, rfl⟩ := List.mem_map.mp hk2
    exact hval r hr
  · have heq : (bucketsOf mk rows).map getKey = firstSeen (rows.map weekKey) := by
      unfold bucketsOf
      rw [List.map_map]
      have hcong : ∀ k ∈ firstSeen (rows.map weekKey),
          (getKey ∘ fun k => mk k (rows.filter (fun r => decide (weekKey r = k)))) k = id k :=
        fun k _ => hmk _ _
      rw [List.map_congr_left hcong, List.map_id]
    rw [heq]
    exact nodup_firstSeen _

theorem calculate_metrics_ok_inv {df : DF} {m : Metrics}
    (h : calculate_metrics df = .ok (some m)) : m = metricsOf df := by
  unfold calculate_metrics at h
  split_ifs at h <;> simp_all

/-- C1 (amended): for every record set on which the Metrics Calculator
returns a mapping, with available time positive and downtime not exceeding
available time, availability% + unavailability% = 100 exactly.  (The original
claim, quantified over all record sets with TD > 0, fails when TFS > TD
because TO is clamped at 0 — see the counterexample.) -/
theorem c1_availability_sum (df : DF) (m : Metrics)
    (hok : calculate_metrics df = .ok (some m))
    (h1 : 0 < m.td) (h2 : m.tfs ≤ m.td) :
    m.disponibilidad + m.indisponibilidad = 100 := by
  have hm := calculate_metrics_ok_inv hok
  subst hm
  have h1x : 0 < metric_td df := h1
  have h2x : metric_tfs df ≤ metric_td df := h2
  have hne : metric_td df ≠ 0 := ne_of_gt h1x
  show metric_disponibilidad df + metric_indisponibilidad df = 100
  unfold metric_disponibilidad metric_indisponibilidad
  rw [if_pos h1x, if_pos h1x]
  unfold metric_to
  rw [max_eq_left (by linarith)]
  field_simp
  ring

/-- C1 (counterexample): a single production-affected record with available
time 10 and downtime 20 gives a non-empty set with TD = 10 > 0 whose
availability% + unavailability% is 200, not 100. -/
theorem c1_counterexample :
    ∃ m : Metrics, calculate_metrics c1df = .ok (some m) ∧ 0 < m.td ∧
      m.disponibilidad + m.indisponibilidad ≠ 100 := by
  refine ⟨metricsOf c1df, rfl, ?_, ?_⟩
  · show 0 < metric_td c1df
    norm_num [metric_td, c1df, dfAll, baseRow]
  · show metric_disponibilidad c1df + metric_indisponibilidad c1df ≠ 100
    norm_num [metric_disponibilidad, metric_indisponibilidad, metric_to, metric_td,
      metric_tfs, c1df, dfAll, baseRow, esAfectada]

/-- C1 (witness): the amended theorem applied to a record set with TD = 100
and TFS = 40. -/
theorem c1_witness :
    calculate_metrics c1wdf = .ok (some (metricsOf c1wdf)) ∧
    0 < (metricsOf c1wdf).td ∧ (metricsOf c1wdf).tfs ≤ (metricsOf c1wdf).td ∧
    (metricsOf c1wdf).disponibilidad + (metricsOf c1wdf).indisponibilidad = 100 := by
  have hok : calculate_metrics c1wdf = .ok (some (metricsOf c1wdf)) := rfl
  have h1 : 0 < (metricsOf c1wdf).td := by
    show 0 < metric_td c1wdf
    simp [metric_td, c1wdf, dfAll, baseRow]
  have h2 : (metricsOf c1wdf).tfs ≤ (metricsOf c1wdf).td := by
    show metric_tfs c1wdf ≤ metric_td c1wdf
    simp [metric_tfs, metric_td, c1wdf, dfAll, baseRow, esAfectada]
    decide
  exact ⟨hok, h1, h2, c1_availability_sum c1wdf (metricsOf c1wdf) hok h1 h2⟩

/-- C3 (counterexample): on a non-empty record set whose
`PRODUCCION_AFECTADA` column is absent, `calculate_metrics` raises `KeyError`
(line 138) instead of treating the column as all-zero. -/
theorem c3_counterexample : c3df.rows ≠ [] ∧ calculate_metrics c3df = .error () := by
  constructor
  · decide
  · rfl

/-- C3 (amended): the five guarded numeric columns (TDISPONIBLE, TFS_MIN,
TFC_MIN, H_EXTRA_MIN — and TR_MIN inside the per-metric sums) are treated as
all-zero contributions when absent, and the Metrics Calculator returns a
mapping without raising provided the `PRODUCCION_AFECTADA`, `TIPO DE MTTO`
and `TR_MIN` columns are present; with those absent on non-empty input a
`KeyError` propagates (see the counterexample). -/
theorem c3_missing_numeric_columns (df : DF)
    (hp : df.hasProdAfectada = true) (ht : df.hasTipoMtto = true) (htr : df.hasTr = true)
    (hTd : df.hasTd = false) (hTfs : df.hasTfs = false) (hTfc : df.hasTfc = false)
    (hHE : df.hasHExtra = false) (hne : df.rows ≠ []) :
    calculate_metrics df = .ok (some (metricsOf df)) ∧
    (metricsOf df).td = 0 ∧ (metricsOf df).tfs = 0 ∧ (metricsOf df).tfc = 0 ∧
    (metricsOf df).horas_extras_acumuladas = 0 := by
  refine ⟨?_, ?_, ?_, ?_, ?_⟩
  · unfold calculate_metrics
    rw [if_neg hne, if_neg (by simp [hp]), if_neg (by simp [ht]), if_neg (by simp [htr])]
  · show metric_td df = 0
    simp [metric_td, hTd]
  · show metric_tfs df = 0
    simp [metric_tfs, hTfs]
  · show metric_tfc df = 0
    simp [metric_tfc, hTfc]
  · show horas_extras_acumuladas df = 0
    simp [horas_extras_acumuladas, hHE]

/-- C3 (witness): the amended theorem applied to a one-row record set lacking
all four guarded numeric columns. -/
theorem c3_witness :
    c3wdf.hasProdAfectada = true ∧ c3wdf.hasTipoMtto = true ∧ c3wdf.hasTr = true ∧
    c3wdf.hasTd = false ∧ c3wdf.hasTfs = false ∧ c3wdf.hasTfc = false ∧
    c3wdf.hasHExtra = false ∧ c3wdf.rows ≠ [] ∧
    (calculate_metrics c3wdf = .ok (some (metricsOf c3wdf)) ∧
      (metricsOf c3wdf).td = 0 ∧ (metricsOf c3wdf).tfs = 0 ∧ (metricsOf c3wdf).tfc = 0 ∧
      (metricsOf c3wdf).horas_extras_acumuladas = 0) := by
  refine ⟨rfl, rfl, rfl, rfl, rfl, rfl, rfl, by decide, ?_⟩
  exact c3_missing_numeric_columns c3wdf rfl rfl rfl rfl rfl rfl rfl (by decide)

/-- C6: the Metrics Calculator returns the empty mapping exactly on empty
input, and the Reliability Calculator returns the empty mapping exactly when
the input is empty or has no emergency-corrective record (stated for inputs
that carry the `TIPO DE MTTO` column, which the reliability path reads
unguarded on line 186). -/
theorem c6_empty_mapping (df : DF) (ht : df.hasTipoMtto = true) :
    (calculate_metrics df = .ok none ↔ df.rows = []) ∧
    (calculate_reliability_metrics df = .ok none ↔
      (df.rows = [] ∨ df_emergency df = [])) := by
  constructor
  · unfold calculate_metrics
    split_ifs with h1 <;> simp [h1]
  · unfold calculate_reliability_metrics
    split_ifs with h1 h2 h3 <;> simp_all

/-- C6 (witness): the characterization applied to the empty record set. -/
theorem c6_witness :
    c6edf.hasTipoMtto = true ∧
    ((calculate_metrics c6edf = .ok none ↔ c6edf.rows = []) ∧
      (calculate_reliability_metrics c6edf = .ok none ↔
        (c6edf.rows = [] ∨ df_emergency c6edf = []))) :=
  ⟨rfl, c6_empty_mapping c6edf rfl⟩

/-- C9: when TD > 0, the maintainability of the Metrics Calculator is
`1 - exp(-failure_count)` whenever the failure count is positive — the TD in
`lambda * TD` cancels — and, independently, the Reliability Calculator
maintainability percentage is `(1 - exp(-failure_count_emergency)) * 100`
whenever the emergency count is positive; each half needs only its own
count hypothesis. -/
theorem c9_maintainability (df : DF) (h1 : 0 < metric_td df) :
    (0 < total_fallas df →
      mantenibilidad df = 1 - Real.exp (-(total_fallas df : ℝ))) ∧
    (0 < total_fallas_emergency df →
      mantenibilidad_pct df = (1 - Real.exp (-(total_fallas_emergency df : ℝ))) * 100) := by
  have hne : metric_td df ≠ 0 := ne_of_gt h1
  constructor
  · intro h2
    have hl : landa df = (total_fallas df : ℚ) / metric_td df := by
      unfold landa
      rw [if_pos h1]
    have hpos : 0 < landa df := by
      rw [hl]
      exact div_pos (by exact_mod_cast h2) h1
    have hcancel : landa df * metric_td df = (total_fallas df : ℚ) := by
      rw [hl]
      field_simp
    unfold mantenibilidad
    rw [if_pos hpos, hcancel]
    push_cast
    ring_nf
  · intro h3
    have hl : landa_emergency df = (total_fallas_emergency df : ℚ) / metric_td df := by
      unfold landa_emergency
      rw [if_pos h1]
    have hpos : 0 < landa_emergency df := by
      rw [hl]
      exact div_pos (by exact_mod_cast h3) h1
    have hcancel : landa_emergency df * metric_td df = (total_fallas_emergency df : ℚ) := by
      rw [hl]
      field_simp
    unfold mantenibilidad_pct mantenibilidad_emergency
    rw [if_pos hpos, hcancel]
    push_cast
    ring_nf

/-- C9 (witness): the cancellation applied to a one-row record set with one
production-affected emergency record and TD = 1440. -/
theorem c9_witness :
    0 < metric_td c9df ∧
    ((0 < total_fallas c9df →
        mantenibilidad c9df = 1 - Real.exp (-(total_fallas c9df : ℝ))) ∧
      (0 < total_fallas_emergency c9df →
        mantenibilidad_pct c9df =
          (1 - Real.exp (-(total_fallas_emergency c9df : ℝ))) * 100)) := by
  have h1 : 0 < metric_td c9df := by
    simp [metric_td, c9df, dfAll, c9row, baseRow]
  exact ⟨h1, c9_maintainability c9df h1⟩


theorem sortSemanas_singleton {β : Type} (num : β → List ℕ) (x : β) :
    sortSemanas num [x] = [x] := rfl

/-- C4: on the three-record scenario the Metrics Calculator returns
failure_count = 1, TR = 60, MTTR = 60, and the Reliability Calculator returns
failure_count_emergency = 2, failure_count_emergency_with_stoppage = 1,
TR_emergency = 80, MTTR_emergency = 40. -/
theorem c4_scenario :
    calculate_metrics c4df = .ok (some (metricsOf c4df)) ∧
    (metricsOf c4df).total_fallas = 1 ∧ (metricsOf c4df).tr = 60 ∧
    (metricsOf c4df).mttr = 60 ∧
    calculate_reliability_metrics c4df = .ok (some (relMetricsOf c4df)) ∧
    (relMetricsOf c4df).total_fallas_emergency = 2 ∧
    (relMetricsOf c4df).total_fallas_emergency_con_parada = 1 ∧
    (relMetricsOf c4df).tr_emergency = 80 ∧ (relMetricsOf c4df).mttr_emergency = 40 := by
  have htf : total_fallas c4df = 1 := by decide
  have htr : metric_tr c4df = 60 := by
    simp [metric_tr, c4df, dfAll, c4r1, c4r2, c4r3, baseRow, esAfectada]
  have hmttr : metric_mttr c4df = 60 := by
    simp [metric_mttr, htf, htr]
  have hce : total_fallas_emergency c4df = 2 := by decide
  have hcp : total_fallas_emergency_con_parada c4df = 1 := by decide
  have htre : tr_emergency c4df = 80 := by
    norm_num +decide [tr_emergency, df_emergency, c4df, dfAll, c4r1, c4r2, c4r3, baseRow,
      esEmergencia]
  have hmttre : mttr_emergency c4df = 40 := by
    norm_num [mttr_emergency, hce, htre]
  exact ⟨rfl, htf, htr, hmttr, rfl, hce, hcp, htre, hmttre⟩

/-- C2: the weekly availability of the general view (source line 256) has no
zero-denominator guard: on a week whose available-time sum is 0 the float
division produces a non-finite value (modeled `none`) instead of the 0 the
specification requires. -/
theorem c2_zero_denominator_bug :
    ∃ b : WeeklyRow, get_weekly_data c2df = .ok [b] ∧ b.dispoSemanal = none := by
  refine ⟨mkWeeklyRow (2024, 1) [c2row], ?_, ?_⟩
  · have h0 : get_weekly_data c2df =
        .ok (sortSemanas (fun b => b.semanaNum)
          (bucketsOf mkWeeklyRow (c2df.rows.filter esAfectada))) := rfl
    have h1 : c2df.rows.filter esAfectada = [c2row] := by decide
    have h2 : bucketsOf mkWeeklyRow [c2row] = [mkWeeklyRow (2024, 1) [c2row]] := by
      simp [bucketsOf, firstSeen, firstSeenAux, weekKey, c2row, baseRow]
    rw [h0, h1, h2, sortSemanas_singleton]
  · simp [mkWeeklyRow, dispo_semanal, c2row, baseRow]

/-- C5 (counterexample): a raw record whose TR cell is present but
non-numeric text and whose timestamps parse to a 45-minute duration comes out
of the Normalizer with `real_repair_time_min = 0`, not the derived duration
the claim asserts for a cell with no usable numeric value — because the
fallback (lines 106-110) keeps the text cell and only afterwards the
`to_numeric(...).fillna(0)` coercion (line 118) turns it into 0. -/
theorem c5_counterexample :
    ∃ d : DF, ∃ r : Row, clean_and_prepare_data c5cexRaw = .ok d ∧ d.rows = [r] ∧
      r.trMin = 0 ∧
      calcular_duracion_minutos c5cexRow.inicioTs c5cexRow.finTs = 45 ∧
      r.trMin ≠ calcular_duracion_minutos c5cexRow.inicioTs c5cexRow.finTs := by
  have hd : calcular_duracion_minutos c5cexRow.inicioTs c5cexRow.finTs = 45 := by
    norm_num [calcular_duracion_minutos, c5cexRow]
  refine ⟨_, normalizeRow true c5cexRow, rfl, rfl, rfl, hd, ?_⟩
  rw [hd]
  norm_num [normalizeRow, tr_fallback, to_numeric_fillna0, c5cexRow]

/-- C5 (amended): every record the Normalizer outputs comes from a raw record
via `normalizeRow`; `real_repair_time_min` equals the source value when that
value is present, numeric and non-zero, equals the derived timestamp duration
when the TR column is absent or the cell is NaN or numerically zero, and is 0
(not the derived duration) when the cell is present but non-numeric, since
the fallback precedes the `to_numeric` coercion; the derived duration is
never negative and is 0 on any parse failure. -/
theorem c5_tr_fallback (raw : RawDF) (df : DF) (r : Row)
    (hok : clean_and_prepare_data raw = .ok df) (hr : r ∈ df.rows) :
    ∃ s ∈ raw.rows, r = normalizeRow raw.hasTr s ∧
      (∀ v : ℚ, raw.hasTr = true → s.trMinSrc = .num v → v ≠ 0 → r.trMin = v) ∧
      ((raw.hasTr = false ∨ s.trMinSrc = .na ∨ s.trMinSrc = .num 0) →
        r.trMin = calcular_duracion_minutos s.inicioTs s.finTs) ∧
      (∀ t : String, raw.hasTr = true → s.trMinSrc = .text t → r.trMin = 0) ∧
      0 ≤ calcular_duracion_minutos s.inicioTs s.finTs ∧
      ((s.inicioTs = none ∨ s.finTs = none) →
        calcular_duracion_minutos s.inicioTs s.finTs = 0) := by
  unfold clean_and_prepare_data at hok
  split at hok
  case isTrue => exact absurd hok (by simp)
  case isFalse =>
    split at hok
    case isTrue => exact absurd hok (by simp)
    case isFalse =>
    simp only [Except.ok.injEq] at hok
    have hrows : df.rows = if raw.hasStatus
        then (raw.rows.map (normalizeRow raw.hasTr)).filter (fun r => r.status == "CULMINADO")
        else raw.rows.map (normalizeRow raw.hasTr) := by rw [← hok]
    rw [hrows] at hr
    have hr2 : r ∈ raw.rows.map (normalizeRow raw.hasTr) := by
      split at hr
      · exact List.mem_of_mem_filter hr
      · exact hr
    obtain ⟨s, hs, rfl⟩ := List.mem_map.mp hr2
    refine ⟨s, hs, rfl, ?_, ?_, ?_, ?_, ?_⟩
    · intro v htr hsome hv
      simp [normalizeRow, tr_fallback, to_numeric_fillna0, htr, hsome, hv]
    · intro hcase
      rcases hcase with h | h | h
      · simp [normalizeRow, tr_fallback, to_numeric_fillna0, h]
      · cases htr : raw.hasTr <;>
          simp [normalizeRow, tr_fallback, to_numeric_fillna0, h, htr]
      · cases htr : raw.hasTr <;>
          simp [normalizeRow, tr_fallback, to_numeric_fillna0, h, htr]
    · intro t htr htext
      simp [normalizeRow, tr_fallback, to_numeric_fillna0, htr, htext]
    · unfold calcular_duracion_minutos
      cases s.inicioTs with
      | none => simp
      | some a =>
        cases s.finTs with
        | none => simp
        | some b => exact le_max_right _ _
    · intro hcase
      unfold calcular_duracion_minutos
      rcases hcase with h | h
      · rw [h]
      · rw [h]
        cases s.inicioTs <;> rfl

/-- C5 (witness): the amended fallback characterization applied to a one-row
raw set whose TR cell holds 5 and whose timestamps fail to parse. -/
theorem c5_witness :
    clean_and_prepare_data c5raw = .ok (dfAll [c5row]) ∧
    c5row ∈ (dfAll [c5row]).rows ∧
    (∃ s ∈ c5raw.rows, c5row = normalizeRow c5raw.hasTr s ∧
      (∀ v : ℚ, c5raw.hasTr = true → s.trMinSrc = .num v → v ≠ 0 → c5row.trMin = v) ∧
      ((c5raw.hasTr = false ∨ s.trMinSrc = .na ∨ s.trMinSrc = .num 0) →
        c5row.trMin = calcular_duracion_minutos s.inicioTs s.finTs) ∧
      (∀ t : String, c5raw.hasTr = true → s.trMinSrc = .text t → c5row.trMin = 0) ∧
      0 ≤ calcular_duracion_minutos s.inicioTs s.finTs ∧
      ((s.inicioTs = none ∨ s.finTs = none) →
        calcular_duracion_minutos s.inicioTs s.finTs = 0)) := by
  have hok : clean_and_prepare_data c5raw = .ok (dfAll [c5row]) := rfl
  have hr : c5row ∈ (dfAll [c5row]).rows := by decide
  exact ⟨hok, hr, c5_tr_fallback c5raw (dfAll [c5row]) c5row hok hr⟩

/-- C7: for every record set whose dates are representable pandas timestamps
(four-digit year, two-digit ISO week — `ValidFecha`), each of the three
weekly-bucket sequences is strictly ascending in the (year, ISO week) key —
which also rules out duplicate bucket keys — including across year
boundaries, because the sort key `str(year) + zfill(str(week), 2)` is
lexicographically ordered exactly like the pair. -/
theorem c7_weekly_sorted (df : DF)
    (hv : ∀ r ∈ df.rows, ValidFecha r.fechaInicio) :
    (∀ l, get_weekly_data df = .ok l →
      l.Pairwise (fun a b => pairLt (a.anio, a.semana) (b.anio, b.semana))) ∧
    (∀ l, get_weekly_extra_hours df = .ok l →
      l.Pairwise (fun a b => pairLt (a.anio, a.semana) (b.anio, b.semana))) ∧
    (∀ l, get_weekly_emergency_data df = .ok l →
      l.Pairwise (fun a b => pairLt (a.anio, a.semana) (b.anio, b.semana))) := by
  refine ⟨?_, ?_, ?_⟩
  · intro l hl
    unfold get_weekly_data at hl
    split_ifs at hl with h1 h2 h3
    · obtain rfl : ([] : List WeeklyRow) = l := by simpa using hl
      exact List.Pairwise.nil
    · obtain rfl : sortSemanas (fun b => b.semanaNum)
          (bucketsOf mkWeeklyRow (df.rows.filter esAfectada)) = l := by simpa using hl
      apply bucketsOf_pairwise mkWeeklyRow (fun b => (b.anio, b.semana))
        (fun b => b.semanaNum) (fun k rs => rfl) (fun k rs => rfl)
      intro r hrf
      exact hv r (List.mem_filter.mp hrf).1
  · intro l hl
    unfold get_weekly_extra_hours at hl
    split_ifs at hl with h1 h2
    · obtain rfl : ([] : List WeeklyExtra) = l := by simpa using hl
      exact List.Pairwise.nil
    · obtain rfl : sortSemanas (fun b => b.semanaNum)
          (bucketsOf mkWeeklyExtra df.rows) = l := by simpa using hl
      apply bucketsOf_pairwise mkWeeklyExtra (fun b => (b.anio, b.semana))
        (fun b => b.semanaNum) (fun k rs => rfl) (fun k rs => rfl)
      exact hv
  · intro l hl
    unfold get_weekly_emergency_data at hl
    split_ifs at hl with h1 h2 h3 h4 h5
    · obtain rfl : ([] : List WeeklyEmergency) = l := by simpa using hl
      exact List.Pairwise.nil
    · obtain rfl : ([] : List WeeklyEmergency) = l := by simpa using hl
      exact List.Pairwise.nil
    · obtain rfl : sortSemanas (fun b => b.semanaNum)
          (bucketsOf mkWeeklyEmergency (df.rows.filter esEmergencia)) = l := by
        simpa using hl
      apply bucketsOf_pairwise mkWeeklyEmergency (fun b => (b.anio, b.semana))
        (fun b => b.semanaNum) (fun k rs => rfl) (fun k rs => rfl)
      intro r hrf
      exact hv r (List.mem_filter.mp hrf).1

/-- C7 (witness): the sortedness statement applied to a two-row record set
spanning the 2023-to-2024 year boundary. -/
theorem c7_witness :
    (∀ r ∈ c7wdf.rows, ValidFecha r.fechaInicio) ∧
    ((∀ l, get_weekly_data c7wdf = .ok l →
      l.Pairwise (fun a b => pairLt (a.anio, a.semana) (b.anio, b.semana))) ∧
    (∀ l, get_weekly_extra_hours c7wdf = .ok l →
      l.Pairwise (fun a b => pairLt (a.anio, a.semana) (b.anio, b.semana))) ∧
    (∀ l, get_weekly_emergency_data c7wdf = .ok l →
      l.Pairwise (fun a b => pairLt (a.anio, a.semana) (b.anio, b.semana)))) :=
  ⟨by decide, c7_weekly_sorted c7wdf (by decide)⟩

theorem sameCols_trans {a b c : DF} (h1 : SameCols a b) (h2 : SameCols b c) :
    SameCols a c :=
  ⟨h1.1.trans h2.1, h1.2.1.trans h2.2.1, h1.2.2.1.trans h2.2.2.1, h1.2.2.2.trans h2.2.2.2⟩

theorem filtro_equipo_sub {e : String} {df d : DF} (h : filtro_equipo e df = .ok d) :
    d.rows ⊆ df.rows ∧ SameCols d df := by
  unfold filtro_equipo at h
  split_ifs at h with h1 h2
  · simp only [Except.ok.injEq] at h
    subst h
    exact ⟨(List.filter_sublist _).subset, rfl, rfl, rfl, rfl⟩
  · simp only [Except.ok.injEq] at h
    subst h
    exact ⟨fun _ hx => hx, rfl, rfl, rfl, rfl⟩

theorem filtro_conjunto_sub {c : String} {df d : DF} (h : filtro_conjunto c df = .ok d) :
    d.rows ⊆ df.rows ∧ SameCols d df := by
  unfold filtro_conjunto at h
  split_ifs at h with h1 h2
  · simp only [Except.ok.injEq] at h
    subst h
    exact ⟨(List.filter_sublist _).subset, rfl, rfl, rfl, rfl⟩
  · simp only [Except.ok.injEq] at h
    subst h
    exact ⟨fun _ hx => hx, rfl, rfl, rfl, rfl⟩

theorem filtro_ubicacion_sub {u : String} {df d : DF} (h : filtro_ubicacion u df = .ok d) :
    d.rows ⊆ df.rows ∧ SameCols d df := by
  unfold filtro_ubicacion at h
  split_ifs at h with h1 h2
  · simp only [Except.ok.injEq] at h
    subst h
    exact ⟨(List.filter_sublist _).subset, rfl, rfl, rfl, rfl⟩
  · simp only [Except.ok.injEq] at h
    subst h
    exact ⟨fun _ hx => hx, rfl, rfl, rfl, rfl⟩
  · simp only [Except.ok.injEq] at h
    subst h
    exact ⟨fun _ hx => hx, rfl, rfl, rfl, rfl⟩

theorem filtro_fechas_sub {fi ff : Option ℤ} {df d : DF}
    (h : filtro_fechas fi ff df = .ok d) :
    d.rows ⊆ df.rows ∧ SameCols d df := by
  unfold filtro_fechas at h
  cases fi with
  | none =>
    cases ff with
    | none =>
      simp only [Except.ok.injEq] at h
      subst h
      exact ⟨fun _ hx => hx, rfl, rfl, rfl, rfl⟩
    | some b =>
      simp only [Except.ok.injEq] at h
      subst h
      exact ⟨fun _ hx => hx, rfl, rfl, rfl, rfl⟩
  | some a =>
    cases ff with
    | none =>
      simp only [Except.ok.injEq] at h
      subst h
      exact ⟨fun _ hx => hx, rfl, rfl, rfl, rfl⟩
    | some b =>
      simp only at h
      split_ifs at h with h1
      simp only [Except.ok.injEq] at h
      subst h
      exact ⟨(List.filter_sublist _).subset, rfl, rfl, rfl, rfl⟩

theorem filtro_equipo_mono {e : String} {df d d2 : DF} (h : filtro_equipo e df = .ok d)
    (hs : d2.rows ⊆ d.rows) (hc : SameCols d2 df) :
    filtro_equipo e d2 = .ok d2 := by
  by_cases h1 : e ≠ "Todos"
  · unfold filtro_equipo at h
    rw [if_pos h1] at h
    by_cases h2 : df.hasEquipo
    · rw [if_pos h2] at h
      simp only [Except.ok.injEq] at h
      subst h
      have hall : ∀ r ∈ d2.rows, (r.equipo == e) = true := by
        intro r hr
        have hmem : r ∈ List.filter (fun r => r.equipo == e) df.rows := hs hr
        exact (List.mem_filter.mp hmem).2
      have h3 : d2.hasEquipo = true := by rw [hc.1]; exact h2
      unfold filtro_equipo
      rw [if_pos h1, if_pos (by rw [h3]), List.filter_eq_self.mpr hall]
    · rw [if_neg h2] at h
      exact absurd h (by simp)
  · unfold filtro_equipo
    rw [if_neg h1]

theorem filtro_conjunto_mono {c : String} {df d d2 : DF}
    (h : filtro_conjunto c df = .ok d)
    (hs : d2.rows ⊆ d.rows) (hc : SameCols d2 df) :
    filtro_conjunto c d2 = .ok d2 := by
  by_cases h1 : c ≠ "Todos"
  · unfold filtro_conjunto at h
    rw [if_pos h1] at h
    by_cases h2 : df.hasConjunto
    · rw [if_pos h2] at h
      simp only [Except.ok.injEq] at h
      subst h
      have hall : ∀ r ∈ d2.rows, (r.conjunto == c) = true := by
        intro r hr
        have hmem : r ∈ List.filter (fun r => r.conjunto == c) df.rows := hs hr
        exact (List.mem_filter.mp hmem).2
      have h3 : d2.hasConjunto = true := by rw [hc.2.1]; exact h2
      unfold filtro_conjunto
      rw [if_pos h1, if_pos (by rw [h3]), List.filter_eq_self.mpr hall]
    · rw [if_neg h2] at h
      exact absurd h (by simp)
  · unfold filtro_conjunto
    rw [if_neg h1]

theorem filtro_ubicacion_mono {u : String} {df d d2 : DF}
    (h : filtro_ubicacion u df = .ok d)
    (hs : d2.rows ⊆ d.rows) (hc : SameCols d2 df) :
    filtro_ubicacion u d2 = .ok d2 := by
  by_cases h1 : u ≠ "Todos"
  · unfold filtro_ubicacion at h
    rw [if_pos h1] at h
    by_cases h2 : df.hasUbicacion
    · rw [if_pos h2] at h
      simp only [Except.ok.injEq] at h
      subst h
      have hall : ∀ r ∈ d2.rows, (r.ubicacion == u) = true := by
        intro r hr
        have hmem : r ∈ List.filter (fun r => r.ubicacion == u) df.rows := hs hr
        exact (List.mem_filter.mp hmem).2
      have h3 : d2.hasUbicacion = true := by rw [hc.2.2.1]; exact h2
      unfold filtro_ubicacion
      rw [if_pos h1, if_pos (by rw [h3]), List.filter_eq_self.mpr hall]
    · have h3 : ¬ (d2.hasUbicacion = true) := by
        rw [hc.2.2.1]
        simpa using h2
      unfold filtro_ubicacion
      rw [if_pos h1, if_neg (by simpa using h3)]
  · unfold filtro_ubicacion
    rw [if_neg h1]

theorem filtro_fechas_mono {fi ff : Option ℤ} {df d d2 : DF}
    (h : filtro_fechas fi ff df = .ok d)
    (hs : d2.rows ⊆ d.rows) (hc : SameCols d2 df) :
    filtro_fechas fi ff d2 = .ok d2 := by
  cases fi with
  | none => cases ff <;> rfl
  | some a =>
    cases ff with
    | none => rfl
    | some b =>
      unfold filtro_fechas at h
      simp only at h
      split_ifs at h with h1
      simp only [Except.ok.injEq] at h
      subst h
      have hall : ∀ r ∈ d2.rows,
          (decide (a ≤ r.fechaInicio.day ∧ r.fechaInicio.day ≤ b)) = true := by
        intro r hr
        have hmem : r ∈ List.filter
            (fun r => decide (a ≤ r.fechaInicio.day ∧ r.fechaInicio.day ≤ b)) df.rows :=
          hs hr
        exact (List.mem_filter.mp hmem).2
      have h3 : d2.hasFecha = true := by rw [hc.2.2.2]; exact h1
      unfold filtro_fechas
      simp only
      rw [if_pos (by rw [h3]), List.filter_eq_self.mpr hall]

theorem apply_filters_ok_decomp {df d4 : DF} {e c u : String} {fi ff : Option ℤ}
    (h : apply_filters df e c u fi ff = .ok d4) :
    ∃ d1 d2 d3, filtro_equipo e df = .ok d1 ∧ filtro_conjunto c d1 = .ok d2 ∧
      filtro_ubicacion u d2 = .ok d3 ∧ filtro_fechas fi ff d3 = .ok d4 := by
  unfold apply_filters at h
  cases h1 : filtro_equipo e df with
  | error err => rw [h1] at h; simp [Except.bind] at h
  | ok d1 =>
    rw [h1] at h
    simp only [Except.bind] at h
    cases h2 : filtro_conjunto c d1 with
    | error err => rw [h2] at h; simp [Except.bind] at h
    | ok d2 =>
      rw [h2] at h
      simp only [Except.bind] at h
      cases h3 : filtro_ubicacion u d2 with
      | error err => rw [h3] at h; simp [Except.bind] at h
      | ok d3 =>
        rw [h3] at h
        simp only [Except.bind] at h
        exact ⟨d1, d2, d3, rfl, h2, h3, h⟩

/-- C8: filtering is idempotent — whenever a first application of the Filter
Engine succeeds, re-applying the same four predicates to its output returns
that output unchanged (and a failed application stays failed). -/
theorem c8_filter_idempotent (df : DF) (e c u : String) (fi ff : Option ℤ) :
    (apply_filters df e c u fi ff).bind (fun d => apply_filters d e c u fi ff) =
      apply_filters df e c u fi ff := by
  cases h : apply_filters df e c u fi ff with
  | error err => rfl
  | ok d4 =>
    simp only [Except.bind]
    obtain ⟨d1, d2, d3, h1, h2, h3, h4⟩ := apply_filters_ok_decomp h
    obtain ⟨s1, c1⟩ := filtro_equipo_sub h1
    obtain ⟨s2, c2⟩ := filtro_conjunto_sub h2
    obtain ⟨s3, c3⟩ := filtro_ubicacion_sub h3
    obtain ⟨s4, c4⟩ := filtro_fechas_sub h4
    have f1 : filtro_equipo e d4 = .ok d4 :=
      filtro_equipo_mono h1 (fun a ha => s2 (s3 (s4 ha)))
        (sameCols_trans c4 (sameCols_trans c3 (sameCols_trans c2 c1)))
    have f2 : filtro_conjunto c d4 = .ok d4 :=
      filtro_conjunto_mono h2 (fun a ha => s3 (s4 ha))
        (sameCols_trans c4 (sameCols_trans c3 c2))
    have f3 : filtro_ubicacion u d4 = .ok d4 :=
      filtro_ubicacion_mono h3 (fun a ha => s4 ha) (sameCols_trans c4 c3)
    have f4 : filtro_fechas fi ff d4 = .ok d4 :=
      filtro_fechas_mono h4 (fun a ha => ha) c4
    unfold apply_filters
    rw [f1]
    simp only [Except.bind]
    rw [f2]
    simp only [Except.bind]
    rw [f3]
    simp only [Except.bind]
    exact f4

/-- C10: when the technical-location column is absent and the
technical-location predicate is not the sentinel, the Filter Engine behaves
exactly as if that predicate were the sentinel: the restriction is silently
skipped while the equipment, assembly and date filters still apply. -/
theorem c10_missing_ubicacion (df : DF) (e c u : String) (fi ff : Option ℤ)
    (hu : df.hasUbicacion = false) (hne : u ≠ "Todos") :
    apply_filters df e c u fi ff = apply_filters df e c "Todos" fi ff := by
  unfold apply_filters
  cases h1 : filtro_equipo e df with
  | error err => simp [Except.bind]
  | ok d1 =>
    simp only [Except.bind]
    cases h2 : filtro_conjunto c d1 with
    | error err => simp [Except.bind]
    | ok d2 =>
      simp only [Except.bind]
      have hu2 : d2.hasUbicacion = false := by
        rw [(filtro_conjunto_sub h2).2.2.2.1, (filtro_equipo_sub h1).2.2.2.1, hu]
      have g1 : filtro_ubicacion u d2 = .ok d2 := by
        unfold filtro_ubicacion
        rw [if_pos hne, if_neg (by simp [hu2])]
      have g2 : filtro_ubicacion "Todos" d2 = .ok d2 := by
        unfold filtro_ubicacion
        rw [if_neg (by simp)]
      rw [g1, g2]

/-- C10 (witness): the skip behavior on a one-row record set lacking the
technical-location column, with filter value "X". -/
theorem c10_witness :
    c10df.hasUbicacion = false ∧ ("X" : String) ≠ "Todos" ∧
    apply_filters c10df "Todos" "Todos" "X" none none =
      apply_filters c10df "Todos" "Todos" "Todos" none none :=
  ⟨rfl, by decide, c10_missing_ubicacion c10df "Todos" "Todos" "X" none none rfl (by decide)⟩
